import Mathlib

/-!
Verification of the TOY scene-file decoder (`src/importer.rs`) and its
reference/query layer (`src/types.rs`).

Modelling conventions:
* A byte buffer is a `List Nat` (each element one byte, little-endian
  multi-byte integers assembled as `b0 + 256*b1 + ...`).
* `f32` fields are kept as their raw 32-bit little-endian bit patterns
  (the decoder only transports them; it never computes with them).
* Rust `String`s are kept as their raw UTF-8 byte lists; `read_string`'s
  `std::str::from_utf8` check is modelled by the `utf8Valid` predicate,
  which follows the UTF-8 well-formedness table (shortest form, surrogate
  exclusion) that `from_utf8` enforces.
* Every `&mut self` reader method is modelled as a state-passing function
  `List Nat → RRes α`: `RRes.ok v s'` is `Ok(v)` with the cursor advanced
  to `s'`, `RRes.err msg s'` is `Err(..)` with the cursor left in state
  `s'` (the mutation performed before the failing `ensure!` persists, as
  it does through `&mut self`), and `RRes.crash` models a Rust panic
  (out-of-bounds slice index / arithmetic overflow).
* In the reference layer, `SceneRef::entities`'s unchecked slice indexing
  `&file.entities[id as usize - 1]` panics on a bad id; that panic is
  modelled as `Option.none` of `resolveEntity`. `EntityRef::mesh` uses the
  checked `meshes.get(..)`, whose `None` is an ordinary value, not a panic.
-/

/-- Raw `f32` triple (bit patterns), `Vec3::new(x, y, z)`. -/
structure Vec3 where
  x : Nat
  y : Nat
  z : Nat
  deriving DecidableEq

/-- Raw `f32` quadruple (bit patterns), `Vec4::new(x, y, z, w)`. -/
structure Vec4 where
  x : Nat
  y : Nat
  z : Nat
  w : Nat
  deriving DecidableEq

/-- Raw quaternion, `Quat::from_raw(a, b, c, d)` (bit patterns). -/
structure Quat where
  a : Nat
  b : Nat
  c : Nat
  d : Nat
  deriving DecidableEq

/-- `MeshIndices`: the tagged union of narrow (u8) and wide (u16) index
lists produced by `read_mesh`. -/
inductive MeshIndices where
  | u8 : List Nat → MeshIndices
  | u16 : List Nat → MeshIndices
  deriving DecidableEq

/-- One color layer (`MeshColorData`): a name and one `Vec4` per point. -/
structure MeshColorData where
  name : List Nat
  data : List Vec4
  deriving DecidableEq

/-- A decoded mesh (`MeshData`): the record `read_mesh` populates. -/
structure MeshData where
  positions : List Vec3
  indices : MeshIndices
  color_data : List MeshColorData
  deriving DecidableEq

/-- A decoded entity (`EntityData`), fields in `read_entity` order. -/
structure EntityData where
  name : List Nat
  position : Vec3
  rotation : Quat
  scale : Vec3
  mesh_id : Nat
  deriving DecidableEq

/-- A decoded scene (`SceneData`): name plus stored 1-based entity ids. -/
structure SceneData where
  name : List Nat
  entities : List Nat
  deriving DecidableEq

/-- The root aggregate `Project` returned by `load` and consumed by the
reference layer (`SceneRef` / `EntityRef` read only these fields). -/
structure Project where
  scenes : List SceneData
  entities : List EntityData
  meshes : List MeshData
  deriving DecidableEq

/-- Result of one reader call on a byte cursor: success with the advanced
cursor, a decode error with the cursor state at the moment of failure
(mutations before the failing check persist through `&mut self`), or a
panic (`crash`). -/
inductive RRes (α : Type) where
  | ok : α → List Nat → RRes α
  | err : String → List Nat → RRes α
  | crash : RRes α
  deriving DecidableEq

/-- Sequencing of reader calls: `?` propagation in the Rust source. -/
def RRes.bind {α β : Type} : RRes α → (α → List Nat → RRes β) → RRes β
  | .ok a s, f => f a s
  | .err m s, _ => .err m s
  | .crash, _ => .crash

/-- `read_u8`: requires one byte, advances past it. -/
def readU8 (s : List Nat) : RRes Nat :=
  match s with
  | b :: rest => .ok b rest
  | [] => .err "Unexpected EOF while expecting u8" s

/-- `read_u16`: two bytes, little-endian. -/
def readU16 (s : List Nat) : RRes Nat :=
  match s with
  | b0 :: b1 :: rest => .ok (b0 + 256 * b1) rest
  | _ => .err "Unexpected EOF while expecting u16" s

/-- `read_u32`: four bytes, little-endian. -/
def readU32 (s : List Nat) : RRes Nat :=
  match s with
  | b0 :: b1 :: b2 :: b3 :: rest =>
      .ok (b0 + 256 * b1 + 65536 * b2 + 16777216 * b3) rest
  | _ => .err "Unexpected EOF while expecting u32" s

/-- `read_tag`: four raw bytes. -/
def readTag (s : List Nat) : RRes (List Nat) :=
  match s with
  | a :: b :: c :: d :: rest => .ok [a, b, c, d] rest
  | _ => .err "Unexpected EOF while expecting tag" s

/-- `expect_tag`: checks the next four bytes equal the given tag. -/
def expectTag (tag : List Nat) (s : List Nat) : RRes Unit :=
  if 4 ≤ s.length then
    if s.take 4 = tag then .ok () (s.drop 4)
    else .err "Expected tag" s
  else .err "Unexpected EOF while expecting tag" s

/-- `read_f32`: `f32::from_bits(read_u32()?)`; kept as the bit pattern. -/
def readF32 (s : List Nat) : RRes Nat := readU32 s

/-- `read_vec3`: three `f32` reads in order. -/
def readVec3 (s : List Nat) : RRes Vec3 :=
  (readF32 s).bind fun x s1 =>
  (readF32 s1).bind fun y s2 =>
  (readF32 s2).bind fun z s3 =>
  .ok ⟨x, y, z⟩ s3

/-- `read_vec4`: four `f32` reads in order. -/
def readVec4 (s : List Nat) : RRes Vec4 :=
  (readF32 s).bind fun x s1 =>
  (readF32 s1).bind fun y s2 =>
  (readF32 s2).bind fun z s3 =>
  (readF32 s3).bind fun w s4 =>
  .ok ⟨x, y, z, w⟩ s4

/-- `read_quat`: four `f32` reads in order. -/
def readQuat (s : List Nat) : RRes Quat :=
  (readF32 s).bind fun a s1 =>
  (readF32 s1).bind fun b s2 =>
  (readF32 s2).bind fun c s3 =>
  (readF32 s3).bind fun d s4 =>
  .ok ⟨a, b, c, d⟩ s4

/-- Continuation byte of a UTF-8 sequence: `0x80..=0xBF`. -/
def utf8Cont (b : Nat) : Bool := decide (128 ≤ b ∧ b ≤ 191)

/-- UTF-8 well-formedness of a byte list, the validation performed by
Rust's `std::str::from_utf8` (shortest-form encodings only, surrogate
code points excluded). -/
def utf8Valid : List Nat → Bool
  | [] => true
  | b :: rest =>
    if b ≤ 127 then utf8Valid rest
    else if 194 ≤ b ∧ b ≤ 223 then
      match rest with
      | c1 :: r => utf8Cont c1 && utf8Valid r
      | [] => false
    else if b = 224 then
      match rest with
      | c1 :: c2 :: r => decide (160 ≤ c1 ∧ c1 ≤ 191) && utf8Cont c2 && utf8Valid r
      | _ => false
    else if (225 ≤ b ∧ b ≤ 236) ∨ b = 238 ∨ b = 239 then
      match rest with
      | c1 :: c2 :: r => utf8Cont c1 && utf8Cont c2 && utf8Valid r
      | _ => false
    else if b = 237 then
      match rest with
      | c1 :: c2 :: r => decide (128 ≤ c1 ∧ c1 ≤ 159) && utf8Cont c2 && utf8Valid r
      | _ => false
    else if b = 240 then
      match rest with
      | c1 :: c2 :: c3 :: r =>
          decide (144 ≤ c1 ∧ c1 ≤ 191) && utf8Cont c2 && utf8Cont c3 && utf8Valid r
      | _ => false
    else if 241 ≤ b ∧ b ≤ 243 then
      match rest with
      | c1 :: c2 :: c3 :: r => utf8Cont c1 && utf8Cont c2 && utf8Cont c3 && utf8Valid r
      | _ => false
    else if b = 244 then
      match rest with
      | c1 :: c2 :: c3 :: r =>
          decide (128 ≤ c1 ∧ c1 ≤ 143) && utf8Cont c2 && utf8Cont c3 && utf8Valid r
      | _ => false
    else false

/-- `read_string`: a 1-byte length prefix, then that many bytes which must
be valid UTF-8. The cursor is advanced past the length prefix before the
body-length check, and past the body before the UTF-8 check, exactly as in
the source (`read_u8` then `ensure!` then `split_at` then `from_utf8`). -/
def readString (s : List Nat) : RRes (List Nat) :=
  (readU8 s).bind fun len s1 =>
  if len ≤ s1.length then
    if utf8Valid (s1.take len) then .ok (s1.take len) (s1.drop len)
    else .err "invalid utf-8" (s1.drop len)
  else .err "Unexpected EOF while reading string" s1

/-- The `for _ in 0..n { vec.push(read()?) }` loops of the source: run one
reader `n` times, collecting the values in order. -/
def readCount {α : Type} (rd : List Nat → RRes α) : Nat → List Nat → RRes (List α)
  | 0, s => .ok [] s
  | n + 1, s =>
    (rd s).bind fun v s1 =>
    (readCount rd n s1).bind fun vs s2 =>
    .ok (v :: vs) s2

/-- `for _ in 0..n { push(read_vec3()?) }`. -/
def readVec3s : Nat → List Nat → RRes (List Vec3) := readCount readVec3

/-- `for _ in 0..n { push(read_vec4()?) }`. -/
def readVec4s : Nat → List Nat → RRes (List Vec4) := readCount readVec4

/-- `for _ in 0..n { push(read_u8()?) }`. -/
def readU8s : Nat → List Nat → RRes (List Nat) := readCount readU8

/-- `for _ in 0..n { push(read_u16()?) }`. -/
def readU16s : Nat → List Nat → RRes (List Nat) := readCount readU16

/-- `for _ in 0..n { push(read_u32()?) }`. -/
def readU32s : Nat → List Nat → RRes (List Nat) := readCount readU32

/-- ASCII bytes of the section tag `"SCNE"`. -/
def tagSCNE : List Nat := [83, 67, 78, 69]

/-- ASCII bytes of the section tag `"MESH"`. -/
def tagMESH : List Nat := [77, 69, 83, 72]

/-- ASCII bytes of the section tag `"ENTY"`. -/
def tagENTY : List Nat := [69, 78, 84, 89]

/-- ASCII bytes of the color-layer tag `"MDTA"`. -/
def tagMDTA : List Nat := [77, 68, 84, 65]

/-- `read_entity`: name, position, rotation, scale, mesh id, in order. -/
def readEntity (s : List Nat) : RRes EntityData :=
  (readString s).bind fun name s1 =>
  (readVec3 s1).bind fun position s2 =>
  (readQuat s2).bind fun rotation s3 =>
  (readVec3 s3).bind fun scale s4 =>
  (readU16 s4).bind fun mid s5 =>
  .ok ⟨name, position, rotation, scale, mid⟩ s5

/-- `read_scene`: name, u32 entity count, then that many u32 ids. -/
def readScene (s : List Nat) : RRes SceneData :=
  (readString s).bind fun name s1 =>
  (readU32 s1).bind fun n s2 =>
  (readU32s n s2).bind fun ids s3 =>
  .ok ⟨name, ids⟩ s3

/-- One color layer inside `read_mesh`: the `MDTA` tag, a name, a u16
point count that must equal the mesh's vertex count (`ensure!` fires with
the cursor just past the count on mismatch), then the point data. -/
def readColorLayer (nv : Nat) (s : List Nat) : RRes MeshColorData :=
  (expectTag tagMDTA s).bind fun _ s1 =>
  (readString s1).bind fun layerName s2 =>
  (readU16 s2).bind fun np s3 =>
  if np = nv then
    (readVec4s np s3).bind fun dat s4 =>
    .ok ⟨layerName, dat⟩ s4
  else .err "Color layer different size to vertex list" s3

/-- `for _ in 0..n { read one color layer }`. -/
def readColorLayers (nv : Nat) : Nat → List Nat → RRes (List MeshColorData) :=
  readCount (readColorLayer nv)

/-- `read_mesh`: u16 vertex count, the positions, u16 triangle count,
`3 * triangles` indices — 16-bit wide iff the vertex count is `≥ 256`,
8-bit otherwise — then a u8 color-layer count and the layers. -/
def readMesh (s : List Nat) : RRes MeshData :=
  (readU16 s).bind fun nv s1 =>
  (readVec3s nv s1).bind fun vertices s2 =>
  (readU16 s2).bind fun nt s3 =>
  (if 256 ≤ nv then
    (readU16s (nt * 3) s3).bind fun idx s4 =>
    RRes.ok (MeshIndices.u16 idx) s4
  else
    (readU8s (nt * 3) s3).bind fun idx s4 =>
    RRes.ok (MeshIndices.u8 idx) s4).bind fun indices s4 =>
  (readU8 s4).bind fun ncl s5 =>
  (readColorLayers nv ncl s5).bind fun layers s6 =>
  .ok ⟨vertices, indices, layers⟩ s6

/-- `read_section`: a 4-byte tag and a u32 payload length; the length must
not exceed the remaining bytes; on success the payload is split off as a
bounded sub-cursor and the parent cursor jumps past it. -/
def readSection (s : List Nat) : RRes (List Nat × List Nat) :=
  (readTag s).bind fun tag s1 =>
  (readU32 s1).bind fun size s2 =>
  if size ≤ s2.length then .ok (tag, s2.take size) (s2.drop size)
  else .err "Invalid section size" s2

/-- `read_magic`: compares `&buf[..3]` against `b"TOY"` — the slice is
taken before any length check, so a buffer shorter than 3 bytes panics
(`crash`) — then consumes the 3 magic bytes and a version byte that must
equal `SCENE_VERSION = 2`. -/
def readMagic (s : List Nat) : RRes Unit :=
  if s.length < 3 then .crash
  else if s.take 3 = [84, 79, 89] then
    (readU8 (s.drop 3)).bind fun version s1 =>
    if version = 2 then .ok () s1 else .err "Version mismatch" s1
  else .err "Expected magic string" s

/-- The `to_err` wrapping in `read_all`: a section decoder's error is
prefixed with the enclosing section's tag for diagnostics. -/
def wrapSection (_tag : List Nat) (m : String) : String :=
  "While parsing section: " ++ m

/-- On success `read_section` consumes exactly the 4-byte tag, the 4-byte
length and the payload from the parent cursor. -/
theorem readSection_consumes {s tag sec rest : List Nat}
    (h : readSection s = RRes.ok (tag, sec) rest) :
    rest.length + (8 + sec.length) = s.length := by
  match s with
  | a :: b :: c :: d :: e :: f :: g :: i :: s2 =>
    simp only [readSection, readTag, readU32, RRes.bind] at h
    split at h
    · rename_i hle
      injection h with h1 h2
      injection h1 with ht hs
      subst h2 hs
      simp [List.length_take, List.length_drop]
      omega
    · exact absurd h (by simp)
  | [] => exact absurd h (by simp [readSection, readTag, RRes.bind])
  | [a] => exact absurd h (by simp [readSection, readTag, RRes.bind])
  | [a, b] => exact absurd h (by simp [readSection, readTag, RRes.bind])
  | [a, b, c] => exact absurd h (by simp [readSection, readTag, RRes.bind])
  | [a, b, c, d] => exact absurd h (by simp [readSection, readTag, readU32, RRes.bind])
  | [a, b, c, d, e] => exact absurd h (by simp [readSection, readTag, readU32, RRes.bind])
  | [a, b, c, d, e, f] => exact absurd h (by simp [readSection, readTag, readU32, RRes.bind])
  | [a, b, c, d, e, f, g] => exact absurd h (by simp [readSection, readTag, readU32, RRes.bind])

/-- The `while !self.buf.is_empty()` loop of `read_all`: frame a section,
dispatch on its tag, append the decoded record in file order, fail on an
unknown tag; errors from inside a section are wrapped with the tag. -/
def readAllLoop (scenes : List SceneData) (meshes : List MeshData)
    (entities : List EntityData) (s : List Nat) : RRes Project :=
  if s = [] then .ok ⟨scenes, entities, meshes⟩ []
  else
    match hsec : readSection s with
    | .err m st => .err m st
    | .crash => .crash
    | .ok (tag, sect) rest =>
      have hlt : rest.length < s.length := by
        have h2 := readSection_consumes hsec
        omega
      if tag = tagSCNE then
        match readScene sect with
        | .ok sc _ => readAllLoop (scenes ++ [sc]) meshes entities rest
        | .err m st => .err (wrapSection tag m) st
        | .crash => .crash
      else if tag = tagMESH then
        match readMesh sect with
        | .ok mh _ => readAllLoop scenes (meshes ++ [mh]) entities rest
        | .err m st => .err (wrapSection tag m) st
        | .crash => .crash
      else if tag = tagENTY then
        match readEntity sect with
        | .ok en _ => readAllLoop scenes meshes (entities ++ [en]) rest
        | .err m st => .err (wrapSection tag m) st
        | .crash => .crash
      else .err "Unexpected tag encountered" rest
termination_by s.length

/-- `load` / `read_all`: the magic-and-version check, then the section
loop starting from empty accumulators. -/
def load (data : List Nat) : RRes Project :=
  (readMagic data).bind fun _ s => readAllLoop [] [] [] s

/-- `EntityRef::mesh`: `mesh_id == 0` is "no mesh"; otherwise a checked
1-based lookup `meshes.get(mesh_id - 1)`, whose out-of-range result is
also `none`. -/
def entityMesh (file : Project) (e : EntityData) : Option MeshData :=
  if e.mesh_id = 0 then none
  else file.meshes.get? (e.mesh_id - 1)

/-- One step of `SceneRef::entities`'s iterator:
`&file.entities[id as usize - 1]`. `id = 0` underflows / indexes out of
bounds and `id > len` indexes out of bounds — both are Rust panics,
modelled as `none`. -/
def resolveEntity (file : Project) (id : Nat) : Option EntityData :=
  if id = 0 then none
  else file.entities.get? (id - 1)

/-- Resolving every stored id of a scene in order; `none` as soon as one
lookup panics. -/
def resolveEntityIds (file : Project) : List Nat → Option (List EntityData)
  | [] => some []
  | id :: rest =>
    match resolveEntity file id with
    | none => none
    | some e =>
      match resolveEntityIds file rest with
      | none => none
      | some l => some (e :: l)

/-- `SceneRef::entities`, fully consumed. -/
def sceneEntities (file : Project) (scene : SceneData) : Option (List EntityData) :=
  resolveEntityIds file scene.entities

/-- The flat index list held by a `MeshIndices` value. -/
def MeshIndices.toList : MeshIndices → List Nat
  | .u8 l => l
  | .u16 l => l

/-- Whether a `MeshIndices` value is the wide (16-bit) variant. -/
def MeshIndices.isWide : MeshIndices → Bool
  | .u8 _ => false
  | .u16 _ => true

/-- Peeling a successful `?`-sequence: the first read succeeded and the
continuation succeeded from its final state. -/
theorem RRes.bind_eq_ok {α β : Type} {r : RRes α} {f : α → List Nat → RRes β}
    {b : β} {s' : List Nat} (h : RRes.bind r f = RRes.ok b s') :
    ∃ a s1, r = RRes.ok a s1 ∧ f a s1 = RRes.ok b s' := by
  cases r with
  | ok a s1 => exact ⟨a, s1, rfl, h⟩
  | err m st => exact absurd h (by simp [RRes.bind])
  | crash => exact absurd h (by simp [RRes.bind])

/-- Peeling a failed `?`-sequence: either the first read failed, or it
succeeded and the continuation failed. -/
theorem RRes.bind_eq_err {α β : Type} {r : RRes α} {f : α → List Nat → RRes β}
    {m : String} {s' : List Nat} (h : RRes.bind r f = RRes.err m s') :
    r = RRes.err m s' ∨ ∃ a s1, r = RRes.ok a s1 ∧ f a s1 = RRes.err m s' := by
  cases r with
  | ok a s1 => exact Or.inr ⟨a, s1, rfl, h⟩
  | err m2 st =>
    simp only [RRes.bind] at h
    injection h with h1 h2
    subst h1 h2
    exact Or.inl rfl
  | crash => exact absurd h (by simp [RRes.bind])

/-- A successful counted loop returns exactly as many values as asked. -/
theorem readCount_length {α : Type} {rd : List Nat → RRes α} :
    ∀ {n : Nat} {s : List Nat} {l : List α} {s' : List Nat},
    readCount rd n s = RRes.ok l s' → l.length = n := by
  intro n
  induction n with
  | zero =>
    intro s l s' h
    simp only [readCount] at h
    injection h with h1 h2
    subst h1; rfl
  | succ n ih =>
    intro s l s' h
    simp only [readCount] at h
    obtain ⟨v, s1, _, h⟩ := RRes.bind_eq_ok h
    obtain ⟨vs, s2, hrec, h⟩ := RRes.bind_eq_ok h
    injection h with h1 h2
    subst h1
    simp [ih hrec]

/-- Every value a successful counted loop returns came from one
successful run of the underlying reader. -/
theorem readCount_mem {α : Type} {rd : List Nat → RRes α} {P : α → Prop}
    (hrd : ∀ s v s', rd s = RRes.ok v s' → P v) :
    ∀ {n : Nat} {s : List Nat} {l : List α} {s' : List Nat},
    readCount rd n s = RRes.ok l s' → ∀ v ∈ l, P v := by
  intro n
  induction n with
  | zero =>
    intro s l s' h v hv
    simp only [readCount] at h
    injection h with h1 h2
    subst h1
    exact absurd hv (List.not_mem_nil v)
  | succ n ih =>
    intro s l s' h v hv
    simp only [readCount] at h
    obtain ⟨w, s1, hw, h⟩ := RRes.bind_eq_ok h
    obtain ⟨vs, s2, hrec, h⟩ := RRes.bind_eq_ok h
    injection h with h1 h2
    subst h1
    rcases List.mem_cons.mp hv with hv | hv
    · exact hv ▸ hrd _ _ _ hw
    · exact ih hrec v hv

/-- A successfully decoded color layer holds exactly the vertex count's
worth of points: the `ensure!` fixes the declared count to `nv` and the
data loop reads exactly that many `Vec4`s. -/
theorem readColorLayer_data_length {nv : Nat} {s : List Nat}
    {cd : MeshColorData} {s' : List Nat}
    (h : readColorLayer nv s = RRes.ok cd s') : cd.data.length = nv := by
  unfold readColorLayer at h
  obtain ⟨u, s1, _, h⟩ := RRes.bind_eq_ok h
  obtain ⟨nm, s2, _, h⟩ := RRes.bind_eq_ok h
  obtain ⟨np, s3, _, h⟩ := RRes.bind_eq_ok h
  by_cases hnp : np = nv
  · rw [if_pos hnp] at h
    obtain ⟨dat, s4, hdat, h⟩ := RRes.bind_eq_ok h
    injection h with h1 h2
    subst h1
    simpa [hnp] using readCount_length hdat
  · rw [if_neg hnp] at h
    exact absurd h (by simp)

/-- Structure of every successfully decoded mesh: the index list's length
is three times the declared triangle count, the wide (16-bit) index
variant is chosen exactly when the vertex count is at least 256, and every
color layer carries one point per vertex. -/
theorem readMesh_shape {s : List Nat} {m : MeshData} {s' : List Nat}
    (h : readMesh s = RRes.ok m s') :
    (∃ nt, (MeshIndices.toList m.indices).length = nt * 3) ∧
    (m.indices.isWide = true ↔ 256 ≤ m.positions.length) ∧
    (∀ cd ∈ m.color_data, cd.data.length = m.positions.length) := by
  unfold readMesh at h
  obtain ⟨nv, s1, hnv, h⟩ := RRes.bind_eq_ok h
  obtain ⟨verts, s2, hverts, h⟩ := RRes.bind_eq_ok h
  obtain ⟨nt, s3, hnt, h⟩ := RRes.bind_eq_ok h
  obtain ⟨indices, s4, hidx, h⟩ := RRes.bind_eq_ok h
  obtain ⟨ncl, s5, hncl, h⟩ := RRes.bind_eq_ok h
  obtain ⟨layers, s6, hlay, h⟩ := RRes.bind_eq_ok h
  injection h with h1 h2
  subst h1
  have hvl : verts.length = nv := readCount_length hverts
  have hlayers : ∀ cd ∈ layers, cd.data.length = nv :=
    readCount_mem (fun _ _ _ hcd => readColorLayer_data_length hcd) hlay
  by_cases hw : 256 ≤ nv
  · rw [if_pos hw] at hidx
    obtain ⟨idx, s4x, hidx2, hok⟩ := RRes.bind_eq_ok hidx
    injection hok with hok1 hok2
    subst hok1
    refine ⟨⟨nt, ?_⟩, ?_, ?_⟩
    · simpa [MeshIndices.toList] using readCount_length hidx2
    · simp [MeshIndices.isWide, hvl, hw]
    · simpa [hvl] using hlayers
  · rw [if_neg hw] at hidx
    obtain ⟨idx, s4x, hidx2, hok⟩ := RRes.bind_eq_ok hidx
    injection hok with hok1 hok2
    subst hok1
    refine ⟨⟨nt, ?_⟩, ?_, ?_⟩
    · simpa [MeshIndices.toList] using readCount_length hidx2
    · simp [MeshIndices.isWide, hvl, hw]
    · simpa [hvl] using hlayers

/-- A failed `read_u8` leaves the cursor untouched. -/
theorem readU8_err {s s' : List Nat} {m : String}
    (h : readU8 s = RRes.err m s') : s' = s := by
  cases s with
  | nil => simp only [readU8] at h; injection h with h1 h2; exact h2.symm
  | cons b rest => exact absurd h (by simp [readU8])

/-- A failed `read_u16` leaves the cursor untouched. -/
theorem readU16_err {s s' : List Nat} {m : String}
    (h : readU16 s = RRes.err m s') : s' = s := by
  match s with
  | [] => simp only [readU16] at h; injection h with h1 h2; exact h2.symm
  | [b] => simp only [readU16] at h; injection h with h1 h2; exact h2.symm
  | b0 :: b1 :: rest => exact absurd h (by simp [readU16])

/-- A failed `read_u32` leaves the cursor untouched. -/
theorem readU32_err {s s' : List Nat} {m : String}
    (h : readU32 s = RRes.err m s') : s' = s := by
  match s with
  | [] => simp only [readU32] at h; injection h with h1 h2; exact h2.symm
  | [b] => simp only [readU32] at h; injection h with h1 h2; exact h2.symm
  | [b, c] => simp only [readU32] at h; injection h with h1 h2; exact h2.symm
  | [b, c, d] => simp only [readU32] at h; injection h with h1 h2; exact h2.symm
  | b :: c :: d :: e :: rest => exact absurd h (by simp [readU32])

/-- A failed `read_tag` leaves the cursor untouched. -/
theorem readTag_err {s s' : List Nat} {m : String}
    (h : readTag s = RRes.err m s') : s' = s := by
  match s with
  | [] => simp only [readTag] at h; injection h with h1 h2; exact h2.symm
  | [b] => simp only [readTag] at h; injection h with h1 h2; exact h2.symm
  | [b, c] => simp only [readTag] at h; injection h with h1 h2; exact h2.symm
  | [b, c, d] => simp only [readTag] at h; injection h with h1 h2; exact h2.symm
  | b :: c :: d :: e :: rest => exact absurd h (by simp [readTag])

/-- A failed `expect_tag` leaves the cursor untouched (both its `ensure!`
checks run before the cursor is advanced). -/
theorem expectTag_err {tag s s' : List Nat} {m : String}
    (h : expectTag tag s = RRes.err m s') : s' = s := by
  unfold expectTag at h
  by_cases h4 : 4 ≤ s.length
  · rw [if_pos h4] at h
    by_cases ht : s.take 4 = tag
    · rw [if_pos ht] at h; exact absurd h (by simp)
    · rw [if_neg ht] at h; injection h with h1 h2; exact h2.symm
  · rw [if_neg h4] at h; injection h with h1 h2; exact h2.symm

/-- A successful `read_u8` advances the cursor by exactly one byte. -/
theorem readU8_ok {s s' : List Nat} {v : Nat}
    (h : readU8 s = RRes.ok v s') : s' = s.drop 1 := by
  cases s with
  | nil => exact absurd h (by simp [readU8])
  | cons b rest => simp only [readU8] at h; injection h with h1 h2; simp [h2.symm]

/-- A successful `read_u32` advances the cursor by exactly four bytes. -/
theorem readU32_ok {s s' : List Nat} {v : Nat}
    (h : readU32 s = RRes.ok v s') : s' = s.drop 4 := by
  match s with
  | [] => exact absurd h (by simp [readU32])
  | [b] => exact absurd h (by simp [readU32])
  | [b, c] => exact absurd h (by simp [readU32])
  | [b, c, d] => exact absurd h (by simp [readU32])
  | b :: c :: d :: e :: rest =>
    simp only [readU32] at h
    injection h with h1 h2
    simp [h2.symm]

/-- How `read_string` can fail: with the cursor untouched (no length
byte), or — the length byte `len` already consumed — with the cursor just
past the length prefix (body missing) or past the whole body (invalid
UTF-8). -/
theorem readString_err {s s' : List Nat} {m : String}
    (h : readString s = RRes.err m s') :
    s' = s ∨ ∃ len rest, s = len :: rest ∧ (s' = rest ∨ s' = rest.drop len) := by
  cases s with
  | nil =>
    left
    simp only [readString, readU8, RRes.bind] at h
    injection h with h1 h2
    exact h2.symm
  | cons len rest =>
    right
    refine ⟨len, rest, rfl, ?_⟩
    simp only [readString, readU8, RRes.bind] at h
    by_cases hl : len ≤ rest.length
    · rw [if_pos hl] at h
      by_cases hu : utf8Valid (rest.take len) = true
      · rw [if_pos hu] at h; exact absurd h (by simp)
      · rw [if_neg hu] at h; injection h with h1 h2; exact Or.inr h2.symm
    · rw [if_neg hl] at h; injection h with h1 h2; exact Or.inl h2.symm

/-- How `read_vec3` can fail: with the cursor untouched, or advanced past
the one or two `f32` components that had already been read. -/
theorem readVec3_err {s s' : List Nat} {m : String}
    (h : readVec3 s = RRes.err m s') :
    s' = s ∨ s' = s.drop 4 ∨ s' = s.drop 8 := by
  unfold readVec3 readF32 at h
  rcases RRes.bind_eq_err h with h | ⟨x, s1, hx, h⟩
  · exact Or.inl (readU32_err h)
  rcases RRes.bind_eq_err h with h | ⟨y, s2, hy, h⟩
  · exact Or.inr (Or.inl ((readU32_err h).trans (readU32_ok hx)))
  rcases RRes.bind_eq_err h with h | ⟨z, s3, hz, h⟩
  · refine Or.inr (Or.inr ?_)
    rw [readU32_err h, readU32_ok hy, readU32_ok hx, List.drop_drop]
  · exact absurd h (by simp)

/-- How `read_vec4` (and `read_quat`, identical shape) can fail: with the
cursor untouched or advanced past the components already read. -/
theorem readVec4_err {s s' : List Nat} {m : String}
    (h : readVec4 s = RRes.err m s') :
    s' = s ∨ s' = s.drop 4 ∨ s' = s.drop 8 ∨ s' = s.drop 12 := by
  unfold readVec4 readF32 at h
  rcases RRes.bind_eq_err h with h | ⟨x, s1, hx, h⟩
  · exact Or.inl (readU32_err h)
  rcases RRes.bind_eq_err h with h | ⟨y, s2, hy, h⟩
  · exact Or.inr (Or.inl ((readU32_err h).trans (readU32_ok hx)))
  rcases RRes.bind_eq_err h with h | ⟨z, s3, hz, h⟩
  · refine Or.inr (Or.inr (Or.inl ?_))
    rw [readU32_err h, readU32_ok hy, readU32_ok hx, List.drop_drop]
  rcases RRes.bind_eq_err h with h | ⟨w, s4, hw, h⟩
  · refine Or.inr (Or.inr (Or.inr ?_))
    rw [readU32_err h, readU32_ok hz, readU32_ok hy, readU32_ok hx,
      List.drop_drop, List.drop_drop]
  · exact absurd h (by simp)

/-- `resolveEntity` panics (`none`) exactly on an id of 0 (usize
underflow) or an id exceeding the entity count (index out of bounds). -/
theorem resolveEntity_none_iff (file : Project) (id : Nat) :
    resolveEntity file id = none ↔ id = 0 ∨ file.entities.length < id := by
  unfold resolveEntity
  by_cases h0 : id = 0
  · simp [h0]
  · simp only [if_neg h0]
    rw [List.get?_eq_none]
    omega

/-- Resolving a scene's id list panics (`none`) exactly when some stored
id is 0 or exceeds the entity count. -/
theorem resolveEntityIds_none_iff (file : Project) :
    ∀ ids : List Nat,
    resolveEntityIds file ids = none ↔
      ∃ id ∈ ids, id = 0 ∨ file.entities.length < id := by
  intro ids
  induction ids with
  | nil => simp [resolveEntityIds]
  | cons id rest ih =>
    simp only [resolveEntityIds]
    by_cases hid : resolveEntity file id = none
    · simp only [hid]
      constructor
      · intro _
        exact ⟨id, List.mem_cons_self id rest, (resolveEntity_none_iff file id).mp hid⟩
      · intro _; trivial
    · obtain ⟨e, he⟩ := Option.ne_none_iff_exists'.mp hid
      rw [he]
      have hgood : ¬(id = 0 ∨ file.entities.length < id) := by
        intro hbad
        exact hid ((resolveEntity_none_iff file id).mpr hbad)
      cases hrec : resolveEntityIds file rest with
      | none =>
        constructor
        · intro _
          obtain ⟨id2, hid2, hbad2⟩ := ih.mp hrec
          exact ⟨id2, List.mem_cons_of_mem id hid2, hbad2⟩
        · intro _; rfl
      | some l =>
        simp only [List.mem_cons]
        constructor
        · intro hcon; exact absurd hcon (by simp)
        · rintro ⟨id2, hid2 | hid2, hbad2⟩
          · exact absurd hbad2 (hid2 ▸ hgood)
          · have hn : resolveEntityIds file rest = none := ih.mpr ⟨id2, hid2, hbad2⟩
            rw [hrec] at hn
            exact absurd hn (by simp)

/-- C1: `load` does not fail gracefully on buffers shorter than the
3-byte magic: `read_magic` evaluates `&self.buf[..3]` before any length
check, so the empty buffer and any 1- or 2-byte buffer panic (`crash`)
instead of returning a decode error; a full-length buffer with a wrong
magic does return the `Expected magic string` error. -/
theorem load_crashes_on_short_buffer :
    load [] = RRes.crash ∧
    load [84, 79] = RRes.crash ∧
    load [66, 79, 89, 2] = RRes.err "Expected magic string" [66, 79, 89, 2] := by
  refine ⟨by decide, by decide, by decide⟩

/-- A project with exactly one entity, for exercising scene-id resolution. -/
def projOneEntity : Project :=
  ⟨[], [⟨[101], ⟨0, 0, 0⟩, ⟨0, 0, 0, 0⟩, ⟨0, 0, 0⟩, 0⟩], []⟩

/-- A scene whose stored entity-id list is `[0]`. -/
def sceneWithIdZero : SceneData := ⟨[115], [0]⟩

/-- C2 counterexample: a scene referencing entity id 0 does not yield an
`UnresolvedReference` error value — `&file.entities[0usize - 1]`
underflows and panics (`none` models that panic), and the iterator's item
type (`EntityRef`, not a `Result`) has no error to report. -/
theorem sceneEntities_id_zero_panics :
    sceneEntities projOneEntity sceneWithIdZero = none := by decide

/-- C2 (amended): `SceneRef::entities` resolves each stored id by
unchecked 1-based indexing, so it panics — rather than reporting an
`UnresolvedReference` resolution error — exactly when some stored id is 0
or exceeds the entity count, and resolves all ids otherwise. -/
theorem sceneEntities_panic_iff (file : Project) (scene : SceneData) :
    sceneEntities file scene = none ↔
      ∃ id ∈ scene.entities, id = 0 ∨ file.entities.length < id :=
  resolveEntityIds_none_iff file scene.entities

/-- A `MESH` section payload declaring 1 vertex and 1 triangle whose
three 8-bit indices are all 5 — far beyond the single vertex. -/
def meshBufBadIndex : List Nat :=
  [1, 0, 0, 0, 0, 0, 0, 0, 0, 0, 0, 0, 0, 0, 1, 0, 5, 5, 5, 0]

/-- The mesh `read_mesh` decodes from `meshBufBadIndex`. -/
def meshBadIndex : MeshData := ⟨[⟨0, 0, 0⟩], MeshIndices.u8 [5, 5, 5], []⟩

/-- C3 counterexample: `read_mesh` happily decodes a mesh whose index
value 5 is not `<` its position count 1 — index values are never checked
against the vertex count. -/
theorem readMesh_accepts_out_of_range_index :
    readMesh meshBufBadIndex = RRes.ok meshBadIndex [] ∧
    meshBadIndex.positions.length = 1 ∧
    5 ∈ MeshIndices.toList meshBadIndex.indices := by decide

/-- C3 (amended): in every successfully decoded mesh the index list's
length is a multiple of 3 — it is read as three indices per declared
triangle — but the index values themselves are not validated against the
number of positions. -/
theorem readMesh_indices_multiple_of_three (s : List Nat) (m : MeshData)
    (s2 : List Nat) (h : readMesh s = RRes.ok m s2) :
    (MeshIndices.toList m.indices).length % 3 = 0 := by
  obtain ⟨⟨nt, hnt⟩, _, _⟩ := readMesh_shape h
  omega

/-- Witness for the amended C3 theorem at the concrete mesh buffer. -/
theorem readMesh_indices_multiple_of_three_witness :
    readMesh meshBufBadIndex = RRes.ok meshBadIndex [] ∧
    (MeshIndices.toList meshBadIndex.indices).length % 3 = 0 :=
  ⟨by decide, readMesh_indices_multiple_of_three meshBufBadIndex meshBadIndex [] (by decide)⟩

/-- How `read_quat` can fail (same shape as `read_vec4`): cursor
untouched or advanced past the components already read. -/
theorem readQuat_err {s s2 : List Nat} {m : String}
    (h : readQuat s = RRes.err m s2) :
    s2 = s ∨ s2 = s.drop 4 ∨ s2 = s.drop 8 ∨ s2 = s.drop 12 := by
  unfold readQuat readF32 at h
  rcases RRes.bind_eq_err h with h | ⟨a, s1, ha, h⟩
  · exact Or.inl (readU32_err h)
  rcases RRes.bind_eq_err h with h | ⟨b, sb, hb, h⟩
  · exact Or.inr (Or.inl ((readU32_err h).trans (readU32_ok ha)))
  rcases RRes.bind_eq_err h with h | ⟨c, sc, hc, h⟩
  · refine Or.inr (Or.inr (Or.inl ?_))
    rw [readU32_err h, readU32_ok hb, readU32_ok ha, List.drop_drop]
  rcases RRes.bind_eq_err h with h | ⟨d, sd, hd, h⟩
  · refine Or.inr (Or.inr (Or.inr ?_))
    rw [readU32_err h, readU32_ok hc, readU32_ok hb, readU32_ok ha,
      List.drop_drop, List.drop_drop]
  · exact absurd h (by simp)

/-- C4 counterexample: `read_string` on the buffer `[2, 0]` — length
prefix 2, only one body byte — fails, yet returns with the cursor already
advanced past the length prefix: the failure state `[0]` differs from the
initial state `[2, 0]`. -/
theorem readString_partial_advance_on_failure :
    readString [2, 0] = RRes.err "Unexpected EOF while reading string" [0] ∧
    ([0] : List Nat) ≠ [2, 0] := by decide

/-- C4 (amended): every fixed-width integer read and tag read either
succeeds (advancing the cursor) or fails with the cursor unchanged; the
length-prefixed string read and the multi-`f32` vector/quaternion reads
can instead fail with the cursor already advanced past the length prefix,
consumed body, or components read before the failing check. -/
theorem cursor_failure_states :
    (∀ s s2 : List Nat, ∀ m : String, readU8 s = RRes.err m s2 → s2 = s) ∧
    (∀ s s2 : List Nat, ∀ m : String, readU16 s = RRes.err m s2 → s2 = s) ∧
    (∀ s s2 : List Nat, ∀ m : String, readU32 s = RRes.err m s2 → s2 = s) ∧
    (∀ s s2 : List Nat, ∀ m : String, readTag s = RRes.err m s2 → s2 = s) ∧
    (∀ t s s2 : List Nat, ∀ m : String, expectTag t s = RRes.err m s2 → s2 = s) ∧
    (∀ s s2 : List Nat, ∀ m : String, readString s = RRes.err m s2 →
      s2 = s ∨ ∃ len rest, s = len :: rest ∧ (s2 = rest ∨ s2 = rest.drop len)) ∧
    (∀ s s2 : List Nat, ∀ m : String, readVec3 s = RRes.err m s2 →
      s2 = s ∨ s2 = s.drop 4 ∨ s2 = s.drop 8) ∧
    (∀ s s2 : List Nat, ∀ m : String, readVec4 s = RRes.err m s2 →
      s2 = s ∨ s2 = s.drop 4 ∨ s2 = s.drop 8 ∨ s2 = s.drop 12) ∧
    (∀ s s2 : List Nat, ∀ m : String, readQuat s = RRes.err m s2 →
      s2 = s ∨ s2 = s.drop 4 ∨ s2 = s.drop 8 ∨ s2 = s.drop 12) :=
  ⟨fun _ _ _ h => readU8_err h, fun _ _ _ h => readU16_err h,
   fun _ _ _ h => readU32_err h, fun _ _ _ h => readTag_err h,
   fun _ _ _ _ h => expectTag_err h, fun _ _ _ h => readString_err h,
   fun _ _ _ h => readVec3_err h, fun _ _ _ h => readVec4_err h,
   fun _ _ _ h => readQuat_err h⟩

/-- Witness for the amended C4 theorem: `read_u8` on the empty buffer
fails with the cursor unchanged. -/
theorem cursor_failure_states_witness :
    readU8 [] = RRes.err "Unexpected EOF while expecting u8" [] ∧
    ([] : List Nat) = [] :=
  ⟨by decide, cursor_failure_states.1 [] [] "Unexpected EOF while expecting u8" (by decide)⟩

/-- A project holding exactly two (empty) meshes. -/
def projTwoMeshes : Project :=
  ⟨[], [], [⟨[], MeshIndices.u8 [], []⟩, ⟨[], MeshIndices.u16 [], []⟩]⟩

/-- An entity with `mesh_id = 3`, referencing a third mesh that does not
exist in `projTwoMeshes`. -/
def entityMeshIdThree : EntityData :=
  ⟨[], ⟨0, 0, 0⟩, ⟨0, 0, 0, 0⟩, ⟨0, 0, 0⟩, 3⟩

/-- The same entity with `mesh_id = 0`. -/
def entityMeshIdZero : EntityData :=
  ⟨[], ⟨0, 0, 0⟩, ⟨0, 0, 0, 0⟩, ⟨0, 0, 0⟩, 0⟩

/-- C5 counterexample: with 2 meshes, `mesh_id = 3` resolves to `None` —
the very same non-error "no mesh" outcome as `mesh_id = 0` — because
`EntityRef::mesh` uses the checked `meshes.get(..)` and its return type
`Option<&Mesh>` has no error variant; no `UnresolvedReference` error
exists or is produced. -/
theorem entityMesh_out_of_range_is_no_mesh :
    entityMesh projTwoMeshes entityMeshIdThree = none ∧
    entityMesh projTwoMeshes entityMeshIdThree
      = entityMesh projTwoMeshes entityMeshIdZero := by decide

/-- C5 (amended): `mesh_id = 0` yields the "no mesh" outcome, and a
`mesh_id` exceeding the mesh count yields that same absent outcome
(`none`) through the checked lookup — not an `UnresolvedReference`
error. -/
theorem entityMesh_absent_cases (file : Project) (e : EntityData) :
    (e.mesh_id = 0 → entityMesh file e = none) ∧
    (file.meshes.length < e.mesh_id → entityMesh file e = none) := by
  constructor
  · intro h0; simp [entityMesh, h0]
  · intro hlt
    unfold entityMesh
    by_cases h0 : e.mesh_id = 0
    · simp [h0]
    · rw [if_neg h0, List.get?_eq_none]
      omega

/-- Witness for the amended C5 theorem at the concrete two-mesh project. -/
theorem entityMesh_absent_cases_witness :
    projTwoMeshes.meshes.length < entityMeshIdThree.mesh_id ∧
    entityMesh projTwoMeshes entityMeshIdThree = none :=
  ⟨by decide, (entityMesh_absent_cases projTwoMeshes entityMeshIdThree).2 (by decide)⟩

/-- C6: index width is selected solely by vertex count: a successfully
decoded mesh carries wide (16-bit) indices exactly when its vertex count
is at least 256, and narrow (8-bit) ones otherwise — so 255 vertices give
8-bit indices and 256 give 16-bit ones. -/
theorem readMesh_index_width (s : List Nat) (m : MeshData) (s2 : List Nat)
    (h : readMesh s = RRes.ok m s2) :
    MeshIndices.isWide m.indices = true ↔ 256 ≤ m.positions.length :=
  (readMesh_shape h).2.1

/-- A minimal `MESH` payload: 0 vertices, 0 triangles, 0 color layers. -/
def meshBufEmpty : List Nat := [0, 0, 0, 0, 0]

/-- Witness for the C6 theorem at the minimal mesh buffer. -/
theorem readMesh_index_width_witness :
    readMesh meshBufEmpty = RRes.ok ⟨[], MeshIndices.u8 [], []⟩ [] ∧
    (MeshIndices.isWide (MeshIndices.u8 []) = true ↔ 256 ≤ ([] : List Vec3).length) :=
  ⟨by decide, readMesh_index_width meshBufEmpty ⟨[], MeshIndices.u8 [], []⟩ [] (by decide)⟩

/-- C7: color-layer sizes are enforced at decode time: every color layer
of a successfully decoded mesh holds exactly one point per vertex, and a
layer whose declared point count differs from the vertex count makes the
layer decoder fail with the size-mismatch error (the `ensure!` fires with
the cursor just past the count). -/
theorem readMesh_color_layer_sizes :
    (∀ s : List Nat, ∀ m : MeshData, ∀ s2 : List Nat,
      readMesh s = RRes.ok m s2 →
      ∀ cd ∈ m.color_data, cd.data.length = m.positions.length) ∧
    (∀ nv np : Nat, ∀ s s1 s2 s3 nm : List Nat,
      expectTag tagMDTA s = RRes.ok () s1 →
      readString s1 = RRes.ok nm s2 →
      readU16 s2 = RRes.ok np s3 →
      np ≠ nv →
      readColorLayer nv s
        = RRes.err "Color layer different size to vertex list" s3) := by
  constructor
  · intro s m s2 h
    exact (readMesh_shape h).2.2
  · intro nv np s s1 s2 s3 nm h1 h2 h3 hne
    unfold readColorLayer
    rw [h1]
    simp only [RRes.bind]
    rw [h2]
    simp only [RRes.bind]
    rw [h3]
    simp only [RRes.bind]
    rw [if_neg hne]

/-- A `MESH` payload with one vertex, no triangles, and one color layer:
`MDTA`, empty name, point count 1, one color value. -/
def meshBufOneLayer : List Nat :=
  [1, 0,
   0, 0, 0, 0, 0, 0, 0, 0, 0, 0, 0, 0,
   0, 0,
   1,
   77, 68, 84, 65,
   0,
   1, 0,
   0, 0, 0, 0, 0, 0, 0, 0, 0, 0, 0, 0, 0, 0, 0, 0]

/-- Witness for the C7 theorem: a successful decode with one color layer,
and a concrete mismatched layer (declared count 2, vertex count 1)
failing with the size-mismatch error. -/
theorem readMesh_color_layer_sizes_witness :
    (readMesh meshBufOneLayer
        = RRes.ok ⟨[⟨0, 0, 0⟩], MeshIndices.u8 [], [⟨[], [⟨0, 0, 0, 0⟩]⟩]⟩ [] ∧
      ∀ cd ∈ [(⟨[], [⟨0, 0, 0, 0⟩]⟩ : MeshColorData)], cd.data.length = 1) ∧
    readColorLayer 1 [77, 68, 84, 65, 0, 2, 0]
      = RRes.err "Color layer different size to vertex list" [] :=
  ⟨⟨by decide,
    readMesh_color_layer_sizes.1 meshBufOneLayer
      ⟨[⟨0, 0, 0⟩], MeshIndices.u8 [], [⟨[], [⟨0, 0, 0, 0⟩]⟩]⟩ [] (by decide)⟩,
   readMesh_color_layer_sizes.2 1 2 [77, 68, 84, 65, 0, 2, 0] [0, 2, 0] [2, 0] [] []
     (by decide) (by decide) (by decide) (by decide)⟩

/-- C8: decoding is deterministic — two runs of `load` on the same bytes
that both succeed return structurally identical projects (and final
cursor states). -/
theorem load_deterministic (data : List Nat) (p1 p2 : Project)
    (r1 r2 : List Nat) (h1 : load data = RRes.ok p1 r1)
    (h2 : load data = RRes.ok p2 r2) : p1 = p2 ∧ r1 = r2 := by
  rw [h1] at h2
  injection h2 with ha hb
  exact ⟨ha, hb⟩

/-- Witness for the C8 theorem on a concrete well-formed buffer
(`"TOY"`, version 2, no sections). -/
theorem load_deterministic_witness :
    load [84, 79, 89, 2] = RRes.ok ⟨[], [], []⟩ [] ∧
    ((⟨[], [], []⟩ : Project) = ⟨[], [], []⟩ ∧ ([] : List Nat) = []) := by
  have hload : load [84, 79, 89, 2] = RRes.ok ⟨[], [], []⟩ [] := by
    have h1 : readMagic [84, 79, 89, 2] = RRes.ok () [] := by decide
    rw [load, h1]
    show readAllLoop [] [] [] [] = RRes.ok ⟨[], [], []⟩ []
    rw [readAllLoop.eq_def]
    simp
  exact ⟨hload,
    load_deterministic [84, 79, 89, 2] ⟨[], [], []⟩ ⟨[], [], []⟩ [] [] hload hload⟩

/-- C9: `EntityRef::mesh` is total: `mesh_id = 0` and any `mesh_id`
beyond the mesh count both produce the absent outcome `none` (the checked
`meshes.get` cannot go out of bounds), and an in-range nonzero `mesh_id`
produces the 1-based indexed mesh. -/
theorem entityMesh_total (file : Project) (e : EntityData) :
    (e.mesh_id = 0 ∨ file.meshes.length < e.mesh_id → entityMesh file e = none) ∧
    (1 ≤ e.mesh_id ∧ e.mesh_id ≤ file.meshes.length →
      ∃ mh, entityMesh file e = some mh ∧
        file.meshes.get? (e.mesh_id - 1) = some mh) := by
  constructor
  · rintro (h0 | hlt)
    · simp [entityMesh, h0]
    · unfold entityMesh
      by_cases h0 : e.mesh_id = 0
      · simp [h0]
      · rw [if_neg h0, List.get?_eq_none]
        omega
  · rintro ⟨h1, h2⟩
    unfold entityMesh
    rw [if_neg (by omega)]
    have hlt : e.mesh_id - 1 < file.meshes.length := by omega
    exact ⟨file.meshes.get ⟨e.mesh_id - 1, hlt⟩,
      List.get?_eq_get hlt, List.get?_eq_get hlt⟩

/-- A project holding one mesh, for the totality witness. -/
def projOneMesh : Project := ⟨[], [], [⟨[], MeshIndices.u8 [], []⟩]⟩

/-- An entity with `mesh_id = 1`, in range for `projOneMesh`. -/
def entityMeshIdOne : EntityData :=
  ⟨[], ⟨0, 0, 0⟩, ⟨0, 0, 0, 0⟩, ⟨0, 0, 0⟩, 1⟩

/-- Witness for the C9 theorem at the concrete one-mesh project. -/
theorem entityMesh_total_witness :
    (1 ≤ entityMeshIdOne.mesh_id ∧
      entityMeshIdOne.mesh_id ≤ projOneMesh.meshes.length) ∧
    ∃ mh, entityMesh projOneMesh entityMeshIdOne = some mh ∧
      projOneMesh.meshes.get? (entityMeshIdOne.mesh_id - 1) = some mh :=
  ⟨by decide, (entityMesh_total projOneMesh entityMeshIdOne).2 (by decide)⟩

/-- C10: each iteration of the decode loop strictly shrinks the outer
cursor: a successful `read_section` consumes exactly the 4-byte tag, the
4-byte length, and the payload — at least 8 bytes — so the remaining
byte count strictly decreases and the loop terminates on every input
(`readAllLoop` is defined by well-founded recursion on exactly this
measure). -/
theorem readSection_strict_decrease (s tag sec rest : List Nat)
    (h : readSection s = RRes.ok (tag, sec) rest) :
    rest.length + (8 + sec.length) = s.length ∧ rest.length < s.length := by
  have hc := readSection_consumes h
  exact ⟨hc, by omega⟩

/-- Witness for the C10 theorem at a concrete 9-byte section. -/
theorem readSection_strict_decrease_witness :
    readSection [83, 67, 78, 69, 1, 0, 0, 0, 9]
      = RRes.ok ([83, 67, 78, 69], [9]) [] ∧
    (([] : List Nat).length + (8 + ([9] : List Nat).length)
        = ([83, 67, 78, 69, 1, 0, 0, 0, 9] : List Nat).length ∧
      ([] : List Nat).length < ([83, 67, 78, 69, 1, 0, 0, 0, 9] : List Nat).length) :=
  ⟨by decide,
   readSection_strict_decrease [83, 67, 78, 69, 1, 0, 0, 0, 9]
     [83, 67, 78, 69] [9] [] (by decide)⟩
